import Mathlib

/-!
Verification development for the go-parsesyslog repository.

The Go sources are shallowly embedded: byte streams become `List Nat`
(one `Nat` per byte, always < 256 on real inputs), a buffered reader
becomes the list of not-yet-consumed bytes, fallible Go functions
become `Except PErr`, and Go's sentinel `error` values become the
constructors of `PErr`.  `fmt.Errorf("...: %w", err)` wrapping is the
`PErr.wrap` constructor, and `errors.Is` is `PErr.is`.

The repository contains several revisions of the RFC5424 parser in one
source tree; they are embedded in separate namespaces:
 * namespace `V1`    — the revision of src/rfc5424/rfc5424.go that uses
   the shared buffer helpers (`parseHostname` at lines 256-269, the
   structured-data finite state machine at lines 128-202, ...);
 * namespace `Arena` — the arena-based revision of the same file
   (`ParseReader` at lines 700-744, `readByte` at lines 1167-1182, ...).
The RFC3164 parser lives in namespace `R3164`.
-/

namespace Parsesyslog

/-- Go error values of the repository (src/error.go) plus the transport
errors that the embedding needs: `eof` is `io.EOF`, `wrap e` is a
`fmt.Errorf("...: %w", e)` wrapper, `notANumber` is the ad-hoc error of
`Atoi`, `discardFailed` is the ad-hoc `errors.New("failed to discard space")`
of the RFC3164 timestamp reader, and `badLength`/`badFormat`/`badMonth`/
`badNumber`/`outOfRange` are the errors of src/rfc3164/date.go.
`panicNegMake` marks the Go runtime fault of `make([]byte, n)` with `n < 0`. -/
inductive PErr where
  | eof
  | wrongFormat
  | invalidPriority
  | invalidProtoVersion
  | invalidTimestamp
  | wrongSDFormat
  | invalidLength
  | invalidNumber
  | prematureEOF
  | notANumber
  | discardFailed
  | badLength
  | badFormat
  | badMonth
  | badNumber
  | outOfRange
  | panicNegMake
  | wrap (e : PErr)
  deriving DecidableEq, Repr

/-- Embeds Go's `errors.Is(e, target)`: direct equality or equality after
peeling `fmt.Errorf` wrappers. -/
def PErr.is : PErr → PErr → Bool
  | .wrap inner, target => (PErr.wrap inner == target) || inner.is target
  | e, target => e == target

/-- Convenience: a Lean string literal as the byte list it denotes (all
characters of the inputs used here are ASCII, so `Char.toNat` is the byte). -/
def str2bytes (s : String) : List Nat :=
  s.data.map Char.toNat

/-- Two's-complement normalization of a Go `int` (64-bit): the result of a
wrapping machine-int operation whose mathematical value is `z`. -/
def goIntWrap (z : Int) : Int :=
  (z + 2 ^ 63) % 2 ^ 64 - 2 ^ 63

/-- Models the Go expression `int(math.Pow10(c))`.  `math.Pow10` is exact as
a `float64` through `10^22`, and through `10^18` the value also fits the
64-bit `int`, so the conversion is exact for `c ≤ 18`.  From `c = 19` on the
float-to-int conversion overflows, which the Go specification leaves
implementation-defined; the model fixes the amd64 saturation value
`minint64`.  No theorem below depends on that branch. -/
def pow10go (c : Nat) : Int :=
  if c ≤ 18 then (10 : Int) ^ c else -(2 ^ 63)

/-- Tail of `Atoi` (src/common.go lines 203-215): Go iterates from the last
byte to the first (`for x := len(b); x > 0; x--`), so the embedding walks the
reversed list; `c` is the digit position, `z` the accumulator (a Go `int`).
Go computes `y := int(b[x-1]) - 0x30` and rejects only `y > 10`, so bytes
below `'0'` (negative `y`) and `':'` (`y = 10`) are accepted; the
accumulation `z += y * int(math.Pow10(c))` is wrapping 64-bit machine-int
arithmetic, modelled by `goIntWrap` on the product and on the sum. -/
def atoiGo : List Nat → Nat → Int → Except PErr Int
  | [], _, z => .ok z
  | d :: rest, c, z =>
      let y : Int := (d : Int) - 0x30
      if y > 10 then .error .notANumber
      else atoiGo rest (c + 1) (goIntWrap (z + goIntWrap (y * pow10go c)))

/-- Embeds `parsesyslog.Atoi` (src/common.go lines 203-215), the
allocation-free ASCII number conversion, with Go's wrapping 64-bit `int`
accumulation. -/
def Atoi (b : List Nat) : Except PErr Int :=
  atoiGo b.reverse 0 0

/-- Modelled from the spec: `parseUnsignedInt(bytes) -> (int, error)`
(spec section 4.1).  The source function `parsesyslog.ParseUintBytes` is not
under src/ (only its tests in src/parsesyslog_test.go and its callers are):
it accepts exactly non-empty ASCII-digit-only input, returning its decimal
value, and fails with InvalidNumber otherwise (empty input or any non-digit
byte present). -/
def ParseUintBytes (b : List Nat) : Except PErr Nat :=
  if b.isEmpty then .error .invalidNumber
  else if b.all (fun d => decide (48 ≤ d ∧ d ≤ 57)) then
    .ok (b.foldl (fun acc d => acc * 10 + (d - 48)) 0)
  else .error .invalidNumber

/-- Embeds `parsesyslog.ReadBytesUntilSpace` (src/common.go lines 138-147):
`ReadSlice(' ')` reads through the first space; on success the space is
trimmed from the returned bytes; if the input ends first, the read error
(EOF) is returned.  Result: (bytes before the space, remaining input). -/
def ReadBytesUntilSpace : List Nat → Except PErr (List Nat × List Nat)
  | [] => .error .eof
  | b :: rest =>
      if b == 32 then .ok ([], rest)
      else
        match ReadBytesUntilSpace rest with
        | .error e => .error e
        | .ok (content, r) => .ok (b :: content, r)

/-- Loop of `ReadBytesUntilSpaceOrNilValue` (src/common.go lines 152-169):
reads bytes, returning at a space; the dash branch additionally requires the
last stored buffer byte (`buf.Bytes()[tb-2]`) to be a space.  `buf` is the
accumulated buffer, `tb` the total bytes read.  Result on success:
(buffer, bytes read, remaining input). -/
def rbsonGo : List Nat → List Nat → Nat → Except PErr (List Nat × Nat × List Nat)
  | [], _, _ => .error .eof
  | b :: rest, buf, tb =>
      let tb := tb + 1
      if b == 32 then .ok (buf, tb, rest)
      else if b == 45 && (decide (0 < buf.length) && (buf.getD (tb - 2) 0 == 32)) then
        .ok (buf, tb, rest)
      else rbsonGo rest (buf ++ [b]) tb

/-- Embeds `parsesyslog.ReadBytesUntilSpaceOrNilValue`
(src/common.go lines 152-169). -/
def ReadBytesUntilSpaceOrNilValue (rem : List Nat) :
    Except PErr (List Nat × Nat × List Nat) :=
  rbsonGo rem [] 0

/-- Loop of `ParsePriority` (src/common.go lines 182-191): read bytes until
`'>'`, accumulating everything before it; EOF propagates. -/
def readUntilGtGo : List Nat → Except PErr (List Nat × List Nat)
  | [] => .error .eof
  | b :: rest =>
      if b == 62 then .ok ([], rest)
      else
        match readUntilGtGo rest with
        | .error e => .error e
        | .ok (content, r) => .ok (b :: content, r)

/-- Embeds `parsesyslog.ParsePriority` (src/common.go lines 173-200): the
first byte must be `'<'` (else `ErrWrongFormat`), bytes up to `'>'` are fed
to `Atoi`, whose failure becomes `ErrInvalidPrio`.  The derived
facility/severity assignments of the source do not affect the priority value
and are not modelled.  Result: (priority, remaining input). -/
def ParsePriority (rem : List Nat) : Except PErr (Int × List Nat) :=
  match rem with
  | [] => .error .eof
  | b :: rest =>
      if b != 60 then .error .wrongFormat
      else
        match readUntilGtGo rest with
        | .error e => .error e
        | .ok (buf, rest') =>
            match Atoi buf with
            | .error _ => .error .invalidPriority
            | .ok p => .ok (p, rest')

/-- Embeds `parsesyslog.StructuredDataParam` (src/logmsg.go): a name/value
byte-string pair. -/
structure StructuredDataParam where
  name : List Nat := []
  value : List Nat := []
  deriving DecidableEq, Repr

/-- Embeds `parsesyslog.StructuredDataElement` as used by the first
(string-based) revision of the RFC5424 parser: the zero value has the empty
string as ID. -/
structure StructuredDataElement where
  id : List Nat := []
  param : List StructuredDataParam := []
  deriving DecidableEq, Repr

/-- Embeds `parsesyslog.StructuredDataElement` as used by the arena revision:
`ID` is a `[]byte`, whose `nil` (`none`) is distinguished from an empty
slice (`some []`) by the parser's `sd.ID == nil` test. -/
structure StructuredDataElementA where
  id : Option (List Nat) := none
  param : List StructuredDataParam := []
  deriving DecidableEq, Repr

/-- Embeds the fields of `parsesyslog.LogMsg` (src/logmsg.go) that the
parsing code of the claims assigns.  Byte-slice fields are `Option` so that
the `nil` zero value (field never assigned) is distinguished from an
assigned empty slice; the RFC3339 `time.Time` value is kept as the raw
accepted timestamp bytes (`none` when never assigned).  The derived
`Facility`/`Severity` copies of the priority and the `Type` tag carry no
additional information and are not modelled. -/
structure LogMsg where
  priority : Int := 0
  protoVersion : Nat := 0
  timestamp : Option (List Nat) := none
  host : Option (List Nat) := none
  app : Option (List Nat) := none
  pid : Option (List Nat) := none
  msgID : Option (List Nat) := none
  structuredData : Option (List StructuredDataElementA) := none
  hasBOM : Bool := false
  message : List Nat := []
  msgLength : Nat := 0
  deriving DecidableEq, Repr

end Parsesyslog

namespace V1

open Parsesyslog

/-- Embeds `(*rfc5424).parseHostname` of the buffer-based revision
(src/rfc5424/rfc5424.go lines 256-269): scan a field with
`ReadBytesUntilSpaceOrNilValue`; when the scanned bytes are empty, or their
first byte is `'-'`, the field is left untouched (`h0`), otherwise the bytes
are assigned.  Result: (hostname field after the call, remaining input). -/
def parseHostname (rem : List Nat) (h0 : Option (List Nat)) :
    Except PErr (Option (List Nat) × List Nat) :=
  match ReadBytesUntilSpaceOrNilValue rem with
  | .error e => .error e
  | .ok (buf, _, rest) =>
      if buf.length == 0 then .ok (h0, rest)
      else if buf.headD 0 == 45 then .ok (h0, rest)
      else .ok (some buf, rest)

/-- Embeds `(*rfc5424).parseProtoVersion` of the buffer-based revision
(src/rfc5424/rfc5424.go lines 219-230): bytes up to a space are fed to
`ParseUintBytes`; its failure becomes `ErrInvalidProtoVersion`; the parsed
number is stored without further checks.  Result: (version, remaining
input). -/
def parseProtoVersion (rem : List Nat) : Except PErr (Nat × List Nat) :=
  match ReadBytesUntilSpace rem with
  | .error e => .error e
  | .ok (b, rest) =>
      match ParseUintBytes b with
      | .error _ => .error .invalidProtoVersion
      | .ok pv => .ok (pv, rest)

/-- Loop of the structured-data finite state machine of the buffer-based
revision (src/rfc5424/rfc5424.go lines 152-198).  Arguments mirror the Go
locals: accumulated elements `sds`, current element `sd`, current parameter
`sdp`, the `insideelem`/`insideparam`/`readname` flags and the scratch
buffer `buf`.  The `']'` branch closes the element, `'['` opens one, a first
space inside an element records the SD-ID (falling through to the remaining
checks, as in the source), `'='` ends a parameter name, `'"'` toggles a
value, a space outside an element ends the section, other bytes are
buffered. -/
def fsmGo : List Nat → List StructuredDataElement → StructuredDataElement →
    StructuredDataParam → Bool → Bool → Bool → List Nat →
    Except PErr (List StructuredDataElement × List Nat)
  | [], _, _, _, _, _, _, _ => .error .eof
  | b :: rest, sds, sd, sdp, insideelem, insideparam, readname, buf =>
      if b == 93 then
        fsmGo rest (sds ++ [sd]) {} sdp false insideparam readname []
      else if b == 91 then
        fsmGo rest sds sd sdp true insideparam false buf
      else
        let step :=
          if b == 32 && !readname then (true, { sd with id := buf }, ([] : List Nat))
          else (readname, sd, buf)
        let readname := step.1
        let sd := step.2.1
        let buf := step.2.2
        if b == 61 && !insideparam then
          fsmGo rest sds sd { sdp with name := buf } insideelem insideparam readname []
        else if b == 34 && !insideparam then
          fsmGo rest sds sd sdp insideelem true readname buf
        else if b == 34 && insideparam then
          fsmGo rest sds { sd with param := sd.param ++ [{ sdp with value := buf }] } {}
            insideelem false readname []
        else if b == 32 && !insideelem then .ok (sds, rest)
        else if b == 32 && !insideparam then
          fsmGo rest sds sd sdp insideelem insideparam readname buf
        else fsmGo rest sds sd sdp insideelem insideparam readname (buf ++ [b])

/-- Embeds `(*rfc5424).parseStructuredData` of the buffer-based revision
(src/rfc5424/rfc5424.go lines 128-202): a leading `'-'` consumes one more
byte and leaves the structured data unset (`none`); otherwise the section
must start with `'['` (else `ErrWrongSDFormat`) and the state machine runs.
Result: (parsed elements, remaining input). -/
def parseStructuredData (rem : List Nat) :
    Except PErr (Option (List StructuredDataElement) × List Nat) :=
  match rem with
  | [] => .error .eof
  | b :: rest =>
      if b == 45 then
        match rest with
        | [] => .error .eof
        | _ :: rest' => .ok (none, rest')
      else if b != 91 then .error .wrongSDFormat
      else
        match fsmGo rest [] {} {} true false false [] with
        | .error e => .error e
        | .ok (sds, r) => .ok (some sds, r)

end V1

namespace GoTime

open Parsesyslog

/-- ASCII decimal digit test for the Go stdlib timestamp model. -/
def isDigit (d : Nat) : Bool :=
  decide (48 ≤ d ∧ d ≤ 57)

/-- Two ASCII digits as a number. -/
def two (a b : Nat) : Nat :=
  (a - 48) * 10 + (b - 48)

/-- Four ASCII digits as a number. -/
def four (a b c d : Nat) : Nat :=
  ((a - 48) * 10 + (b - 48)) * 100 + (c - 48) * 10 + (d - 48)

/-- Gregorian leap-year rule, as in Go's time package. -/
def leapYear (y : Nat) : Bool :=
  (y % 4 == 0 && y % 100 != 0) || (y % 400 == 0)

/-- Days in a month, as validated by Go's `time.Parse`. -/
def daysInMonth (y m : Nat) : Nat :=
  if m == 2 then (if leapYear y then 29 else 28)
  else if m == 4 || m == 6 || m == 9 || m == 11 then 30
  else 31

/-- Validity of the RFC3339 zone suffix: `"Z"` or `±hh:mm`. -/
def zoneValid : List Nat → Bool
  | [90] => true
  | [s, h1, h2, 58, m1, m2] =>
      (s == 43 || s == 45) && isDigit h1 && isDigit h2 && isDigit m1 && isDigit m2 &&
        decide (two h1 h2 ≤ 23) && decide (two m1 m2 ≤ 59)
  | _ => false

/-- Digits of a fractional-second field followed by a zone suffix. -/
def fracTail : List Nat → Bool
  | [] => false
  | d :: rest => if isDigit d then fracTail rest else zoneValid (d :: rest)

/-- After the seconds field: an optional `.digits` fraction, then the zone. -/
def fracZone : List Nat → Bool
  | 46 :: d :: rest => isDigit d && fracTail rest
  | rest => zoneValid rest

/-- Models the Go standard library call `time.Parse(time.RFC3339, s)`
succeeding: layout `YYYY-MM-DDThh:mm:ss[.fff...](Z|±hh:mm)` with the
component ranges Go enforces (month 1-12, day within the month, hour 0-23,
minute/second 0-59).  Only used by the embedded RFC5424 timestamp parsers;
the reconstructed `time.Time` value itself is not needed by any claim and is
represented by the raw accepted bytes. -/
def rfc3339Valid (b : List Nat) : Bool :=
  match b with
  | y1 :: y2 :: y3 :: y4 :: 45 :: m1 :: m2 :: 45 :: d1 :: d2 :: 84 ::
      h1 :: h2 :: 58 :: mi1 :: mi2 :: 58 :: s1 :: s2 :: rest =>
      ([y1, y2, y3, y4, m1, m2, d1, d2, h1, h2, mi1, mi2, s1, s2].all isDigit) &&
      decide (1 ≤ two m1 m2 ∧ two m1 m2 ≤ 12) &&
      decide (1 ≤ two d1 d2 ∧ two d1 d2 ≤ daysInMonth (four y1 y2 y3 y4) (two m1 m2)) &&
      decide (two h1 h2 ≤ 23) && decide (two mi1 mi2 ≤ 59) && decide (two s1 s2 ≤ 59) &&
      fracZone rest
  | _ => false

end GoTime

namespace Arena

open Parsesyslog

/-- The fixed arena capacity of the arena revision:
`make([]byte, 0, 2048)` in its `init` (src/rfc5424/rfc5424.go lines 680-689). -/
def arenaCap : Nat := 2048

/-- Parser state of the arena revision of `rfc5424`
(src/rfc5424/rfc5424.go lines 668-674): the unread input of the buffered
reader, the scratch arena, the write offset, and the consumed-byte counter
`r.len` (a Go `int`).  The arena contents `r.arena[0:r.offset]` are stored
most-recent-byte-first (`arenaRev`), so a write is a cons; the invariant
`arenaRev.length = offset` holds on every reachable state. -/
structure AState where
  rem : List Nat
  arenaRev : List Nat
  offset : Nat
  len : Int
  deriving DecidableEq, Repr

/-- Embeds `(*rfc5424).sliceFrom` (src/rfc5424/rfc5424.go lines 1132-1134):
`r.arena[start:r.offset]`, read off the reversed representation. -/
def sliceFrom (s : AState) (start : Nat) : List Nat :=
  (s.arenaRev.take (s.offset - start)).reverse

/-- Embeds `(*rfc5424).readByte` (src/rfc5424/rfc5424.go lines 1167-1182):
read one byte; if the write offset has reached the arena capacity, refuse
with `ErrWrongFormat`; otherwise store the byte and advance `offset` and
`len`. -/
def readByte (s : AState) : Except PErr (Nat × AState) :=
  match s.rem with
  | [] => .error .eof
  | c :: rest =>
      if s.offset ≥ arenaCap then .error .wrongFormat
      else .ok (c, ⟨rest, c :: s.arenaRev, s.offset + 1, s.len + 1⟩)

/-- Loop of `(*rfc5424).readUntil` (src/rfc5424/rfc5424.go lines 1136-1165),
with the reader state split into explicit components for structural
recursion: peek one byte (EOF propagates); at the delimiter, either consume
it without an arena write (`include = false`, counting it in `len`) or store
it through `readByte`; other bytes go through `readByte`. -/
def readUntilGo : List Nat → List Nat → Nat → Int → Nat → Bool → Except PErr AState
  | [], _, _, _, _, _ => .error .eof
  | c :: rest, arenaRev, offset, len, untilB, incl =>
      if c == untilB then
        if !incl then .ok ⟨rest, arenaRev, offset, len + 1⟩
        else
          match readByte ⟨c :: rest, arenaRev, offset, len⟩ with
          | .error e => .error e
          | .ok (_, s') => .ok s'
      else
        match readByte ⟨c :: rest, arenaRev, offset, len⟩ with
        | .error e => .error e
        | .ok (_, s') => readUntilGo rest s'.arenaRev s'.offset s'.len untilB incl

/-- Embeds `(*rfc5424).readUntil` on an `AState`. -/
def readUntil (s : AState) (untilB : Nat) (incl : Bool) : Except PErr AState :=
  readUntilGo s.rem s.arenaRev s.offset s.len untilB incl

/-- Embeds `(*rfc5424).parseMessageLength` (src/rfc5424/rfc5424.go lines
993-1001): read the digits up to a space into the arena, set
`r.len = r.len - len(val) - 1`, and convert with `ParseUintBytes` (whose
error is returned unwrapped; the read error is wrapped by `fmt.Errorf`). -/
def parseMessageLength (s : AState) : Except PErr (Nat × AState) :=
  let start := s.offset
  match readUntil s 32 false with
  | .error e => .error (.wrap e)
  | .ok s' =>
      let val := sliceFrom s' start
      let s'' : AState := { s' with len := s'.len - val.length - 1 }
      match ParseUintBytes val with
      | .error e => .error e
      | .ok n => .ok (n, s'')

/-- Embeds `(*rfc5424).parsePriority` of the arena revision
(src/rfc5424/rfc5424.go lines 1005-1029): read through `'>'` into the arena;
the slice must start with `'<'` and end with `'>'` (else `ErrInvalidPrio`);
its interior is converted by `ParseUintBytes` (failure wrapped by
`fmt.Errorf`); values above 191 are `ErrInvalidPrio`.  The derived
facility/severity assignments carry no extra information and are not
modelled. -/
def parsePriority (s : AState) (lm : LogMsg) : Except PErr (AState × LogMsg) :=
  let start := s.offset
  match readUntil s 62 true with
  | .error e => .error (.wrap e)
  | .ok s' =>
      let val := sliceFrom s' start
      if val.headD 0 != 60 || val.getLastD 0 != 62 then .error .invalidPriority
      else
        match ParseUintBytes ((val.drop 1).dropLast) with
        | .error e => .error (.wrap e)
        | .ok prio =>
            if prio > 191 then .error .invalidPriority
            else .ok (s', { lm with priority := prio })

/-- Embeds `(*rfc5424).parseProtoVersion` of the arena revision
(src/rfc5424/rfc5424.go lines 1033-1045): digits up to a space; a
`ParseUintBytes` failure or any value other than 1 is
`ErrInvalidProtoVersion`. -/
def parseProtoVersion (s : AState) (lm : LogMsg) : Except PErr (AState × LogMsg) :=
  let start := s.offset
  match readUntil s 32 false with
  | .error e => .error (.wrap e)
  | .ok s' =>
      let val := sliceFrom s' start
      match ParseUintBytes val with
      | .error _ => .error .invalidProtoVersion
      | .ok pv =>
          if pv != 1 then .error .invalidProtoVersion
          else .ok (s', { lm with protoVersion := pv })

/-- Embeds `(*rfc5424).parseTimestamp` of the arena revision
(src/rfc5424/rfc5424.go lines 1050-1066): empty field or a lone `'-'` rolls
the arena offset back and leaves the timestamp unset; otherwise the bytes
must satisfy `time.Parse(time.RFC3339, ...)` (else `ErrInvalidTimestamp`). -/
def parseTimestamp (s : AState) (lm : LogMsg) : Except PErr (AState × LogMsg) :=
  let start := s.offset
  match readUntil s 32 false with
  | .error e => .error (.wrap e)
  | .ok s' =>
      let tsBytes := sliceFrom s' start
      if tsBytes.length == 0 || (tsBytes.length == 1 && tsBytes.headD 0 == 45) then
        .ok ({ s' with arenaRev := s'.arenaRev.drop (s'.offset - start), offset := start }, lm)
      else if GoTime.rfc3339Valid tsBytes then .ok (s', { lm with timestamp := some tsBytes })
      else .error .invalidTimestamp

/-- Embeds `(*rfc5424).parseHostname` of the arena revision
(src/rfc5424/rfc5424.go lines 1070-1082): empty field or a lone `'-'` rolls
the offset back and leaves the field unset; otherwise the bytes are
assigned. -/
def parseHostname (s : AState) (lm : LogMsg) : Except PErr (AState × LogMsg) :=
  let start := s.offset
  match readUntil s 32 false with
  | .error e => .error (.wrap e)
  | .ok s' =>
      let host := sliceFrom s' start
      if host.length == 0 || (host.length == 1 && host.headD 0 == 45) then
        .ok ({ s' with arenaRev := s'.arenaRev.drop (s'.offset - start), offset := start }, lm)
      else .ok (s', { lm with host := some host })

/-- Embeds `(*rfc5424).parseAppName` of the arena revision
(src/rfc5424/rfc5424.go lines 1086-1098), same shape as `parseHostname`. -/
def parseAppName (s : AState) (lm : LogMsg) : Except PErr (AState × LogMsg) :=
  let start := s.offset
  match readUntil s 32 false with
  | .error e => .error (.wrap e)
  | .ok s' =>
      let app := sliceFrom s' start
      if app.length == 0 || (app.length == 1 && app.headD 0 == 45) then
        .ok ({ s' with arenaRev := s'.arenaRev.drop (s'.offset - start), offset := start }, lm)
      else .ok (s', { lm with app := some app })

/-- Embeds `(*rfc5424).parseProcID` of the arena revision
(src/rfc5424/rfc5424.go lines 1102-1114), same shape as `parseHostname`. -/
def parseProcID (s : AState) (lm : LogMsg) : Except PErr (AState × LogMsg) :=
  let start := s.offset
  match readUntil s 32 false with
  | .error e => .error (.wrap e)
  | .ok s' =>
      let pid := sliceFrom s' start
      if pid.length == 0 || (pid.length == 1 && pid.headD 0 == 45) then
        .ok ({ s' with arenaRev := s'.arenaRev.drop (s'.offset - start), offset := start }, lm)
      else .ok (s', { lm with pid := some pid })

/-- Embeds `(*rfc5424).parseMsgID` of the arena revision
(src/rfc5424/rfc5424.go lines 1118-1130), same shape as `parseHostname`. -/
def parseMsgID (s : AState) (lm : LogMsg) : Except PErr (AState × LogMsg) :=
  let start := s.offset
  match readUntil s 32 false with
  | .error e => .error (.wrap e)
  | .ok s' =>
      let msgid := sliceFrom s' start
      if msgid.length == 0 || (msgid.length == 1 && msgid.headD 0 == 45) then
        .ok ({ s' with arenaRev := s'.arenaRev.drop (s'.offset - start), offset := start }, lm)
      else .ok (s', { lm with msgID := some msgid })

/-- Embeds `(*rfc5424).parseHeader` of the arena revision
(src/rfc5424/rfc5424.go lines 757-781): priority, version, timestamp,
hostname, app name, proc id, msg id in strict sequence, failing fast. -/
def parseHeader (s : AState) (lm : LogMsg) : Except PErr (AState × LogMsg) :=
  match parsePriority s lm with
  | .error e => .error e
  | .ok (s, lm) =>
      match parseProtoVersion s lm with
      | .error e => .error e
      | .ok (s, lm) =>
          match parseTimestamp s lm with
          | .error e => .error e
          | .ok (s, lm) =>
              match parseHostname s lm with
              | .error e => .error e
              | .ok (s, lm) =>
                  match parseAppName s lm with
                  | .error e => .error e
                  | .ok (s, lm) =>
                      match parseProcID s lm with
                      | .error e => .error e
                      | .ok (s, lm) =>
                          match parseMsgID s lm with
                          | .error e => .error e
                          | .ok (s, lm) => .ok (s, lm)

/-- Reading phase of `(*rfc5424).parseStructuredData` of the arena revision
(src/rfc5424/rfc5424.go lines 834-877): accumulate bytes (most-recent-first
`bufRev`; the source appends to `r.buf`), toggling the quoted state at `'"'`
and, outside quotes, tracking bracket depth; a space at depth 0 is unread
and the buffered bytes minus that space are the section; EOF ends the
section with the full buffer; a negative depth seen at a non-bracket byte is
`ErrWrongSDFormat`.  Result: (section bytes, remaining input). -/
def sdScan : List Nat → List Nat → Bool → Int → Except PErr (List Nat × List Nat)
  | [], bufRev, _, _ => .ok (bufRev.reverse, [])
  | data :: rest, bufRev, inQuotes, depth =>
      let bufRev := data :: bufRev
      let inQuotes := if data == 34 then !inQuotes else inQuotes
      if !inQuotes then
        if data == 32 && depth == 0 then .ok (bufRev.reverse.dropLast, 32 :: rest)
        else if data == 91 then sdScan rest bufRev inQuotes (depth + 1)
        else if data == 93 then sdScan rest bufRev inQuotes (depth - 1)
        else if depth < 0 then .error .wrongSDFormat
        else sdScan rest bufRev inQuotes depth
      else if depth < 0 then .error .wrongSDFormat
      else sdScan rest bufRev inQuotes depth

/-- The slice `message[start:i]` used by the element loop. -/
def msgSlice (message : List Nat) (start i : Nat) : List Nat :=
  (message.drop start).take (i - start)

/-- Element loop of `(*rfc5424).parseStructuredData` of the arena revision
(src/rfc5424/rfc5424.go lines 892-971), iterating `i` over the section
bytes.  `fuel` only bounds the recursion and is chosen at least
`message.length`, so it never runs out before the loop condition
`i < len(message)` fails.  State mirrors the Go locals: slice start `start`,
`insideValue`, the current element's ID (`none` is Go `nil`) and parameters,
the pending parameter name, and the accumulated elements. -/
def sdElems (message : List Nat) : Nat → Nat → Nat → Bool → Option (List Nat) →
    List StructuredDataParam → List Nat → List StructuredDataElementA →
    Except PErr (List StructuredDataElementA)
  | 0, _, _, _, _, _, _, sds => .ok sds
  | fuel + 1, i, start, insideValue, sdID, params, sdpName, sds =>
      if i < message.length then
        let b := message.getD i 0
        if b == 93 && insideValue then
          if message.getD (i - 1) 0 != 92 && message.getD (i - 2) 0 != 92 then
            .error .wrongSDFormat
          else sdElems message fuel (i + 1) start insideValue sdID params sdpName sds
        else if b == 34 then
          if insideValue then
            if message.getD (i - 1) 0 == 92 then
              sdElems message fuel (i + 1) start insideValue sdID params sdpName sds
            else if sdpName.length == 0 then .error .wrongSDFormat
            else
              sdElems message fuel (i + 1) (i + 1) false sdID
                (params ++ [⟨sdpName, msgSlice message start i⟩]) [] sds
          else sdElems message fuel (i + 1) (i + 1) true sdID params sdpName sds
        else if !insideValue then
          if b == 61 then
            sdElems message fuel (i + 1) (i + 1) insideValue sdID params
              (msgSlice message start i) sds
          else if b == 32 || b == 93 then
            if b == 93 then
              let sdID' := if sdID == none then some (msgSlice message start i) else sdID
              let sds' := sds ++ [⟨sdID', params⟩]
              if i + 1 < message.length && message.getD (i + 1) 0 == 91 then
                sdElems message fuel (i + 1) (i + 2) insideValue none [] sdpName sds'
              else .ok sds'
            else
              if sdID != none && params.length == 0 then .error .wrongSDFormat
              else if sdID == none then
                sdElems message fuel (i + 1) (i + 1) insideValue
                  (some (msgSlice message start i)) params sdpName sds
              else sdElems message fuel (i + 1) (i + 1) insideValue sdID params sdpName sds
          else sdElems message fuel (i + 1) start insideValue sdID params sdpName sds
        else sdElems message fuel (i + 1) start insideValue sdID params sdpName sds
      else .ok sds

/-- Embeds `(*rfc5424).parseStructuredData` of the arena revision
(src/rfc5424/rfc5424.go lines 788-977).  A `'-'` followed by EOF or a space
is the NILVALUE (the space is consumed and counted); `'-'` followed by
anything else is `ErrWrongSDFormat` (the source unreads one byte — only one
of its two `UnreadByte` calls can succeed — before failing).  Otherwise the
section must open with `'['`; the scan phase collects the section bytes,
`r.len` grows by their count, the structural check requires the section to
be bracketed, the element loop parses it, and one trailing byte (the unread
space) is consumed. -/
def parseStructuredData (s : AState) (lm : LogMsg) : Except PErr (AState × LogMsg) :=
  match s.rem with
  | [] => .error .eof
  | nextByte :: rest =>
      if nextByte == 45 then
        match rest with
        | [] => .ok (⟨[], s.arenaRev, s.offset, s.len⟩, { lm with structuredData := none })
        | b :: rest' =>
            if b != 32 then .error .wrongSDFormat
            else .ok (⟨rest', s.arenaRev, s.offset, s.len + 2⟩,
              { lm with structuredData := none })
      else if nextByte != 91 then .error .wrongSDFormat
      else
        match sdScan rest [91] false 1 with
        | .error e => .error e
        | .ok (message, rem') =>
            let s' : AState := ⟨rem', s.arenaRev, s.offset, s.len + message.length⟩
            if message.length < 2 || message.headD 0 != 91 || message.getLastD 0 != 93 then
              if message.length != 0 then .error .wrongSDFormat
              else .ok (s', lm)
            else
              match sdElems message (message.length + 1) 1 1 false none [] [] [] with
              | .error e => .error e
              | .ok sds =>
                  match s'.rem with
                  | [] => .error .eof
                  | _ :: r2 =>
                      .ok (⟨r2, s'.arenaRev, s'.offset, s'.len + 1⟩,
                        { lm with structuredData := some sds })

/-- Embeds `(*rfc5424).parseBOM` of the arena revision
(src/rfc5424/rfc5424.go lines 981-990): peek three bytes without consuming
(a peek at fewer than three remaining bytes fails with the read error); set
the flag when they are the UTF-8 byte order mark. -/
def parseBOM (s : AState) (lm : LogMsg) : Except PErr (AState × LogMsg) :=
  match s.rem with
  | a :: b :: c :: _ =>
      if a == 0xEF && b == 0xBB && c == 0xBF then .ok (s, { lm with hasBOM := true })
      else .ok (s, lm)
  | _ => .error .eof

/-- Embeds `(*rfc5424).handleParseError` (src/rfc5424/rfc5424.go lines
747-752): `io.EOF` (also wrapped) becomes `ErrPrematureEOF`; other errors
pass through. -/
def handleParseError (e : PErr) : PErr :=
  if e.is .eof then .prematureEOF else e

/-- Embeds `(*rfc5424).ParseReader` of the arena revision
(src/rfc5424/rfc5424.go lines 700-744) on a complete input stream: reset the
offset and counter, read the length prefix, parse header and structured data
(EOF surfacing as `ErrPrematureEOF`), then the BOM peek — whose failure
makes the function return the message so far with a nil error —, then read
exactly `wantLength - r.len` payload bytes (`io.ReadFull`: a partial read is
`ErrUnexpectedEOF`, mapped to `ErrPrematureEOF`; reading nothing at EOF is
the wrapped `io.EOF`; a negative count would make `make` panic), and finally
require the reader to be drained (`Buffered() != 0` is `ErrInvalidLength`;
the modelled inputs fit one bufio buffer, so the buffered bytes are exactly
the unconsumed ones). -/
def ParseReader (input : List Nat) : Except PErr LogMsg :=
  let s0 : AState := ⟨input, [], 0, 0⟩
  match parseMessageLength s0 with
  | .error e => .error e
  | .ok (wantLength, s1) =>
      match parseHeader s1 {} with
      | .error e => .error (handleParseError e)
      | .ok (s2, lm) =>
          match parseStructuredData s2 lm with
          | .error e => .error (handleParseError e)
          | .ok (s3, lm) =>
              match parseBOM s3 lm with
              | .error _ => .ok lm
              | .ok (s4, lm) =>
                  let need : Int := wantLength - s4.len
                  if need < 0 then .error .panicNegMake
                  else
                    let needN := need.toNat
                    if s4.rem.length < needN then
                      if s4.rem.length == 0 && needN > 0 then .error (.wrap .eof)
                      else .error .prematureEOF
                    else
                      let md := s4.rem.take needN
                      let rem' := s4.rem.drop needN
                      let lm := { lm with message := md, msgLength := md.length }
                      if rem'.length != 0 then .error .invalidLength
                      else .ok lm

end Arena

namespace R3164

open Parsesyslog

/-- Embeds the constant `timestampLength` (src/rfc3164/date.go line 9). -/
def timestampLength : Nat := 15

/-- Embeds `parseMonth` (src/rfc3164/date.go lines 89-138): direct ASCII
comparison of the three bytes against the twelve month abbreviations. -/
def parseMonth (a b c : Nat) : Option Nat :=
  if a = 74 then
    if b = 97 ∧ c = 110 then some 1
    else if b = 117 ∧ c = 110 then some 6
    else if b = 117 ∧ c = 108 then some 7
    else none
  else if a = 70 then
    if b = 101 ∧ c = 98 then some 2 else none
  else if a = 77 then
    if b = 97 ∧ c = 114 then some 3
    else if b = 97 ∧ c = 121 then some 5
    else none
  else if a = 65 then
    if b = 112 ∧ c = 114 then some 4
    else if b = 117 ∧ c = 103 then some 8
    else none
  else if a = 83 then
    if b = 101 ∧ c = 112 then some 9 else none
  else if a = 79 then
    if b = 99 ∧ c = 116 then some 10 else none
  else if a = 78 then
    if b = 111 ∧ c = 118 then some 11 else none
  else if a = 68 then
    if b = 101 ∧ c = 99 then some 12 else none
  else none

/-- Embeds `parse2` (src/rfc3164/date.go lines 140-145): two ASCII digits. -/
def parse2 (a b : Nat) : Option Nat :=
  if a < 48 ∨ a > 57 ∨ b < 48 ∨ b > 57 then none
  else some ((a - 48) * 10 + (b - 48))

/-- Embeds `parseDay` (src/rfc3164/date.go lines 147-157): a space-padded
single digit or two digits. -/
def parseDay (a b : Nat) : Option Nat :=
  if a = 32 then
    if b < 48 ∨ b > 57 then none else some (b - 48)
  else parse2 a b

/-- Embeds the validating part of `rfc3164.ParseTimestamp`
(src/rfc3164/date.go lines 31-87): the 15-byte layout `Mmm dd HH:MM:SS` with
its structural bytes, month table, day in [1,31], hour in [0,23], minute in
[0,59] and second in [0,60].  On success the parsed components
(month, day, hour, minute, second) are returned; the source then builds a
`time.Time` from them with a year inferred from `time.Now()` — that
wall-clock-dependent value is outside the shallow embedding and outside the
claims. -/
def ParseTimestamp (b : List Nat) : Except PErr (Nat × Nat × Nat × Nat × Nat) :=
  if b.length ≠ timestampLength then .error .badLength
  else if b.getD 3 0 ≠ 32 ∨ b.getD 6 0 ≠ 32 ∨ b.getD 9 0 ≠ 58 ∨ b.getD 12 0 ≠ 58 then
    .error .badFormat
  else
    match parseMonth (b.getD 0 0) (b.getD 1 0) (b.getD 2 0) with
    | none => .error .badMonth
    | some mon =>
        match parseDay (b.getD 4 0) (b.getD 5 0) with
        | none => .error .badNumber
        | some day =>
            if day < 1 ∨ day > 31 then .error .outOfRange
            else
              match parse2 (b.getD 7 0) (b.getD 8 0) with
              | none => .error .outOfRange
              | some hh =>
                  if hh > 23 then .error .outOfRange
                  else
                    match parse2 (b.getD 10 0) (b.getD 11 0) with
                    | none => .error .outOfRange
                    | some mm =>
                        if mm > 59 then .error .outOfRange
                        else
                          match parse2 (b.getD 13 0) (b.getD 14 0) with
                          | none => .error .outOfRange
                          | some ss =>
                              if ss > 60 then .error .outOfRange
                              else .ok (mon, day, hh, mm, ss)

/-- Embeds `(*msg).parseTimestamp` (src/rfc3164/rfc3164.go lines 129-147):
read exactly 15 bytes one at a time (EOF propagates), then `Discard(1)` must
consume exactly one separator byte (else the ad-hoc "failed to discard
space" error), then validate the 15-byte window with `ParseTimestamp`.
Result: (components, remaining input). -/
def parseTimestamp (rem : List Nat) :
    Except PErr ((Nat × Nat × Nat × Nat × Nat) × List Nat) :=
  if rem.length < timestampLength then .error .eof
  else
    match rem.drop timestampLength with
    | [] => .error .discardFailed
    | _ :: rest =>
        match ParseTimestamp (rem.take timestampLength) with
        | .error e => .error e
        | .ok t => .ok (t, rest)

/-- Scan loop of `(*msg).parseTag` (src/rfc3164/rfc3164.go lines 173-206):
up to 32 bytes (`fuel` counts the remaining loop budget); every byte goes
into `buf`; a newline or space ends the scan (newline setting `reol`); a
colon sets `hasColon`; `'['`/`']'` toggle the pid accumulator; other bytes
go to the app or pid accumulator.  Result: (rem, buf, app, pid, hasColon,
bytesRead, reol). -/
def tagScan : Nat → List Nat → List Nat → List Nat → List Nat → Bool → Bool → Nat →
    Except PErr (List Nat × List Nat × List Nat × List Nat × Bool × Nat × Bool)
  | 0, rem, buf, app, pid, hasColon, _, bytesRead =>
      .ok (rem, buf, app, pid, hasColon, bytesRead, false)
  | _ + 1, [], _, _, _, _, _, _ => .error .eof
  | fuel + 1, b :: rest, buf, app, pid, hasColon, inPid, bytesRead =>
      let buf := buf ++ [b]
      let bytesRead := bytesRead + 1
      if b == 10 then .ok (rest, buf, app, pid, hasColon, bytesRead, true)
      else if b == 32 then .ok (rest, buf, app, pid, hasColon, bytesRead, false)
      else if b == 58 then tagScan fuel rest buf app pid true inPid bytesRead
      else if b == 91 && !inPid then tagScan fuel rest buf app pid hasColon true bytesRead
      else if b == 93 && inPid then tagScan fuel rest buf app pid hasColon false bytesRead
      else if !inPid then tagScan fuel rest buf (app ++ [b]) pid hasColon inPid bytesRead
      else tagScan fuel rest buf app (pid ++ [b]) hasColon inPid bytesRead

/-- Embeds `(*msg).readMessageContent` (src/rfc3164/rfc3164.go lines
228-244): read bytes into the message from `startPosition` up to the 32-byte
budget or a newline; EOF ends the message without error.  Fuel is
`32 - startPosition`.  Result: (message bytes appended, remaining input,
reol). -/
def readMessageContent : Nat → List Nat → List Nat → (List Nat × List Nat × Bool)
  | 0, rem, msg => (msg, rem, false)
  | _ + 1, [], msg => (msg, [], false)
  | fuel + 1, b :: rest, msg =>
      let msg := msg ++ [b]
      if b == 10 then (msg, rest, true)
      else readMessageContent fuel rest msg

/-- Embeds `(*msg).parseTag` (src/rfc3164/rfc3164.go lines 164-225): after
the bounded scan, a colon with a non-empty app accumulator yields the
app-name (and the pid when non-empty) and the message continues from
`bytesRead`; otherwise the whole scanned buffer becomes the start of the
message, continued from its length.  Result: (app field, pid field, message,
remaining input, reol). -/
def parseTag (rem : List Nat) :
    Except PErr (Option (List Nat) × Option (List Nat) × List Nat × List Nat × Bool) :=
  match tagScan 32 rem [] [] [] false false 0 with
  | .error e => .error e
  | .ok (rem', buf, app, pid, hasColon, bytesRead, reol) =>
      if hasColon && decide (0 < app.length) then
        let appField := some app
        let pidField := if 0 < pid.length then some pid else none
        let rmc := readMessageContent (32 - bytesRead) rem' []
        .ok (appField, pidField, rmc.1, rmc.2.1, reol || rmc.2.2)
      else
        let rmc := readMessageContent (32 - buf.length) rem' buf
        .ok (none, none, rmc.1, rmc.2.1, reol || rmc.2.2)

end R3164

namespace Spec

open Parsesyslog

/-- Spec-side (refinement) definition: the decimal value denoted by a string
of ASCII digits, most significant first. -/
def decValue (b : List Nat) : Int :=
  b.foldl (fun a d => a * 10 + ((d : Int) - 48)) 0

/-- Spec-side: an ASCII digit byte. -/
def digit (d : Nat) : Bool :=
  decide (48 ≤ d ∧ d ≤ 57)

/-- Spec-side: the month bytes match one of the twelve three-letter
abbreviations of the legacy timestamp format. -/
def monthMatches (a b c : Nat) : Bool :=
  decide ((a = 74 ∧ b = 97 ∧ c = 110) ∨ (a = 70 ∧ b = 101 ∧ c = 98) ∨
    (a = 77 ∧ b = 97 ∧ c = 114) ∨ (a = 65 ∧ b = 112 ∧ c = 114) ∨
    (a = 77 ∧ b = 97 ∧ c = 121) ∨ (a = 74 ∧ b = 117 ∧ c = 110) ∨
    (a = 74 ∧ b = 117 ∧ c = 108) ∨ (a = 65 ∧ b = 117 ∧ c = 103) ∨
    (a = 83 ∧ b = 101 ∧ c = 112) ∨ (a = 79 ∧ b = 99 ∧ c = 116) ∨
    (a = 78 ∧ b = 111 ∧ c = 118) ∨ (a = 68 ∧ b = 101 ∧ c = 99))

/-- Spec-side: the day field, a space-padded single digit or two digits, as
a value. -/
def dayValue (a b : Nat) : Option Nat :=
  if a = 32 ∧ digit b then some (b - 48)
  else if digit a ∧ digit b then some ((a - 48) * 10 + (b - 48))
  else none

/-- Spec-side: a zero-padded two-digit field as a value. -/
def twoDigitValue (a b : Nat) : Option Nat :=
  if digit a ∧ digit b then some ((a - 48) * 10 + (b - 48)) else none

/-- Spec-side characterisation of an acceptable legacy timestamp, following
the spec's wording: exactly 15 bytes with layout `Mmm dd HH:MM:SS` (three
letter month, space, two-character day — space- or zero-padded —, space,
zero-padded HH:MM:SS), month one of the twelve abbreviations, day in
[1,31], hour in [0,23], minute in [0,59], second in [0,60]. -/
def legacyTimestampOk (b : List Nat) : Bool :=
  decide (b.length = 15) &&
  (decide (b.getD 3 0 = 32) &&
  (decide (b.getD 6 0 = 32) &&
  (decide (b.getD 9 0 = 58) &&
  (decide (b.getD 12 0 = 58) &&
  (monthMatches (b.getD 0 0) (b.getD 1 0) (b.getD 2 0) &&
  ((match dayValue (b.getD 4 0) (b.getD 5 0) with
    | some d => decide (1 ≤ d ∧ d ≤ 31)
    | none => false) &&
  ((match twoDigitValue (b.getD 7 0) (b.getD 8 0) with
    | some h => decide (h ≤ 23)
    | none => false) &&
  ((match twoDigitValue (b.getD 10 0) (b.getD 11 0) with
    | some m => decide (m ≤ 59)
    | none => false) &&
  (match twoDigitValue (b.getD 13 0) (b.getD 14 0) with
    | some s => decide (s ≤ 60)
    | none => false)))))))))

end Spec

namespace Inputs

open Parsesyslog

/-- A frame whose header fields (2043 arena bytes, dominated by a 2030-byte
hostname) plus structured-data section (11 buffered bytes) exceed 2048
buffered bytes in total while the arena itself stays below its capacity. -/
def largeBuffered : List Nat :=
  str2bytes "2059 <14>1 - " ++ List.replicate 2030 104 ++ str2bytes " - - - [id k=\"v\"] msg"

/-- A frame whose hostname alone (3000 bytes) overflows the 2048-byte
arena. -/
def arenaOverflow : List Nat :=
  str2bytes "9999 <14>1 - " ++ List.replicate 3000 104

end Inputs

section Theorems

open Parsesyslog

set_option maxRecDepth 100000

/-- The structured-data element `foo@1234` with parameter `Revision` =
`1.2.3.4`, in the string-based representation. -/
def fooElem : StructuredDataElement :=
  ⟨str2bytes "foo@1234", [⟨str2bytes "Revision", str2bytes "1.2.3.4"⟩]⟩

/-- The structured-data element `bar@1234` with parameter `Revision` =
`1.2.3.4`, in the string-based representation. -/
def barElem : StructuredDataElement :=
  ⟨str2bytes "bar@1234", [⟨str2bytes "Revision", str2bytes "1.2.3.4"⟩]⟩

/-- `fooElem` in the arena ([]byte) representation. -/
def fooElemA : StructuredDataElementA :=
  ⟨some (str2bytes "foo@1234"), [⟨str2bytes "Revision", str2bytes "1.2.3.4"⟩]⟩

/-- `barElem` in the arena ([]byte) representation. -/
def barElemA : StructuredDataElementA :=
  ⟨some (str2bytes "bar@1234"), [⟨str2bytes "Revision", str2bytes "1.2.3.4"⟩]⟩

/-- Claim C1 evaluation: the truncated frame `32 <14>1 - - - - - [id@1 k="v"] m`
declares 32 content bytes but supplies only 30; the arena revision's
`ParseReader` nevertheless returns success with an empty message, because the
three-byte BOM peek fails at the 1 remaining byte and that error path
returns a nil error, skipping both the payload read and the declared-length
check. -/
theorem c1_versioned_truncated_frame_parses_ok :
    Arena.ParseReader (str2bytes "32 <14>1 - - - - - [id@1 k=\"v\"] m") =
      .ok { priority := 14, protoVersion := 1, structuredData := some [⟨some (str2bytes "id@1"), [⟨str2bytes "k", str2bytes "v"⟩]⟩], message := [], msgLength := 0 } ∧
    (str2bytes "<14>1 - - - - - [id@1 k=\"v\"] m").length = 30 ∧ (30 : Nat) < 32 := by
  refine ⟨rfl, by decide, by decide⟩

/-- Claim C3: `[foo@1234 Revision="1.2.3.4"]` yields exactly one element with
ID `foo@1234` and one parameter `Revision` = `1.2.3.4`, and
`[foo@1234 Revision="1.2.3.4"][bar@1234 Revision="1.2.3.4"]` yields exactly
two elements in source order, each with its one parameter — in both the
buffer-based finite-state-machine revision and the arena revision of the
versioned decoder. -/
theorem c3_structured_data_examples :
    V1.parseStructuredData (str2bytes "[foo@1234 Revision=\"1.2.3.4\"] ") =
      .ok (some [fooElem], []) ∧
    V1.parseStructuredData
        (str2bytes "[foo@1234 Revision=\"1.2.3.4\"][bar@1234 Revision=\"1.2.3.4\"] ") =
      .ok (some [fooElem, barElem], []) ∧
    Arena.parseStructuredData ⟨str2bytes "[foo@1234 Revision=\"1.2.3.4\"] x", [], 0, 0⟩ {} =
      .ok (⟨[120], [], 0, 30⟩, { structuredData := some [fooElemA] }) ∧
    Arena.parseStructuredData
        ⟨str2bytes "[foo@1234 Revision=\"1.2.3.4\"][bar@1234 Revision=\"1.2.3.4\"] x",
          [], 0, 0⟩ {} =
      .ok (⟨[120], [], 0, 59⟩, { structuredData := some [fooElemA, barElemA] }) := by
  refine ⟨rfl, rfl, rfl, rfl⟩

/-- Claim C4 counterexample: the structured-data input `[id k="a\b] c"]`
contains an unescaped `']'` inside the quoted value (its predecessor is
`'b'`, not a backslash), yet the arena revision accepts it, because its
escape test also treats a backslash two bytes before the bracket as an
escape; the claim's universal rejection is therefore false. -/
theorem c4_unescaped_bracket_accepted :
    Arena.parseStructuredData ⟨str2bytes "[id k=\"a\\b] c\"] x", [], 0, 0⟩ {} =
      .ok (⟨[120], [], 0, 16⟩, { structuredData := some [⟨some (str2bytes "id"), [⟨str2bytes "k", str2bytes "a\\b] c"⟩]⟩] }) ∧
    (str2bytes "a\\b] c").getD 3 0 = 93 ∧ (str2bytes "a\\b] c").getD 2 0 ≠ 92 := by
  refine ⟨rfl, by decide, by decide⟩

/-- Claim C4 (amended): the arena revision rejects `[id k="oops ] here"]`
with WrongSDFormat — a `']'` inside a quoted value is rejected when neither
of the two preceding bytes is a backslash — while a `']'` with a backslash
two bytes earlier is treated as escaped and accepted, and the earlier
finite-state-machine revision performs no such rejection at all (it accepts
the same input, ending the element at the quoted bracket). -/
theorem c4_bracket_in_value_rules :
    Arena.parseStructuredData ⟨str2bytes "[id k=\"oops ] here\"] x", [], 0, 0⟩ {} =
      .error .wrongSDFormat ∧
    (Arena.parseStructuredData ⟨str2bytes "[id k=\"a\\b] c\"] x", [], 0, 0⟩ {}).isOk = true ∧
    (V1.parseStructuredData (str2bytes "[id k=\"oops ] here\"] ")).isOk = true := by
  refine ⟨rfl, rfl, rfl⟩

/-- Claim C2 counterexample: a hostname field `-foo` (a dash followed by
more characters before the delimiter) is not assigned by the buffer-based
revision's `parseHostname` — the field is treated as absent although it is
not the lone-dash NILVALUE. -/
theorem c2_leading_dash_field_treated_absent :
    V1.parseHostname (str2bytes "-foo ") none = .ok (none, []) ∧
    str2bytes "-foo" ≠ [45] := by
  refine ⟨rfl, by decide⟩

/-- Claim C5 counterexample: the shared `ParsePriority` accepts `<200>` and
returns priority 200, which is greater than 191 — there is no range check,
so decoding can succeed with a priority above 191. -/
theorem c5_priority_200_accepted :
    ParsePriority (str2bytes "<200>") = .ok (200, []) ∧ (191 : Int) < 200 := by
  refine ⟨rfl, by decide⟩

/-- Claim C6 counterexample: the buffer-based revision's `parseProtoVersion`
accepts the version field `2` (which parses to a number different from 1)
and returns it without `ErrInvalidProtoVersion`. -/
theorem c6_version_two_accepted :
    V1.parseProtoVersion (str2bytes "2 ") = .ok (2, []) ∧ (2 : Nat) ≠ 1 := by
  refine ⟨rfl, by decide⟩

/-- Claim C7 counterexample: `Atoi` succeeds on the empty input (returning
0) and on the non-digit byte `':'` (0x3A, returning 10), so it does not
fail on empty or non-digit input as claimed. -/
theorem c7_atoi_accepts_empty_and_colon :
    Atoi [] = .ok 0 ∧ Atoi [58] = .ok 10 ∧ ¬ (48 ≤ (58 : Nat) ∧ (58 : Nat) ≤ 57) := by
  refine ⟨rfl, rfl, by decide⟩

/-- Claim C9: the legacy tag/message scan on the four reference inputs:
`syslog-ng[1122680]: Test123` yields app `syslog-ng`, proc-id `1122680`,
message `Test123`; `su: Test123` yields app `su`, no proc-id, message
`Test123`; `This is a test ` (no colon) and `-- MARK --` + newline yield no
tag and the entire text as the message verbatim. -/
theorem c9_legacy_tag_examples :
    R3164.parseTag (str2bytes "syslog-ng[1122680]: Test123") =
      .ok (some (str2bytes "syslog-ng"), some (str2bytes "1122680"), str2bytes "Test123", [], false) ∧
    R3164.parseTag (str2bytes "su: Test123") =
      .ok (some (str2bytes "su"), none, str2bytes "Test123", [], false) ∧
    R3164.parseTag (str2bytes "This is a test ") =
      .ok (none, none, str2bytes "This is a test ", [], false) ∧
    R3164.parseTag (str2bytes "-- MARK --\n") =
      .ok (none, none, str2bytes "-- MARK --\n", [], true) := by
  refine ⟨rfl, rfl, rfl, rfl⟩

/-- Helper: `atoiGo` succeeds exactly when every byte is at most 0x3A. -/
theorem atoiGo_isOk (l : List Nat) : ∀ (c : Nat) (z : Int),
    (atoiGo l c z).isOk = l.all (fun d => decide (d ≤ 58)) := by
  induction l with
  | nil => intro c z; rfl
  | cons d rest ih =>
      intro c z
      simp only [atoiGo, List.all_cons]
      by_cases h : ((d : Int) - 48 > 10)
      · rw [if_pos h]
        have hd : ¬ (d ≤ 58) := by omega
        simp [hd, Except.isOk, Except.toBool]
      · rw [if_neg h]
        have hd : d ≤ 58 := by omega
        rw [ih]
        simp [hd]

/-- Helper: appending a digit multiplies the decimal value by ten. -/
theorem decValue_append_singleton (xs : List Nat) (d : Nat) :
    Spec.decValue (xs ++ [d]) = Spec.decValue xs * 10 + ((d : Int) - 48) := by
  simp [Spec.decValue, List.foldl_append]

/-- Helper: the wrap of a value already inside the signed 64-bit range is
the value itself. -/
theorem goIntWrap_eq_self (v : Int) (h0 : 0 ≤ v) (h1 : v < 2 ^ 63) : goIntWrap v = v := by
  unfold goIntWrap
  have : (v + 2 ^ 63) % 2 ^ 64 = v + 2 ^ 63 := Int.emod_eq_of_lt (by omega) (by omega)
  omega

/-- Helper: on all-digit input short enough to stay inside the 64-bit int,
`atoiGo` computes the exact decimal value (every wrap is the identity). -/
theorem atoiGo_digits (l : List Nat) : ∀ (c : Nat) (z : Int),
    (∀ d ∈ l, 48 ≤ d ∧ d ≤ 57) → c + l.length ≤ 18 → 0 ≤ z → z < 10 ^ c →
    atoiGo l c z = .ok (z + Spec.decValue l.reverse * 10 ^ c) := by
  induction l with
  | nil => intro c z _ _ _ _; simp [atoiGo, Spec.decValue]
  | cons d rest ih =>
      intro c z h hlen hz0 hz1
      have hd := h d (List.mem_cons_self d rest)
      have hrest : ∀ x ∈ rest, 48 ≤ x ∧ x ≤ 57 := fun x hx => h x (List.mem_cons_of_mem d hx)
      have hlen' : c + rest.length + 1 ≤ 18 := by
        have := hlen
        simp only [List.length_cons] at this
        omega
      simp only [atoiGo]
      rw [if_neg (by omega : ¬ ((d : Int) - 48 > 10))]
      have hpow : pow10go c = (10 : Int) ^ c := by
        unfold pow10go
        rw [if_pos (by omega)]
      rw [hpow]
      have hp10 : (10 : Int) ^ c ≤ 10 ^ 17 := pow_le_pow_right (by norm_num) (by omega)
      have hprod9 : ((d : Int) - 48) * 10 ^ c ≤ 9 * 10 ^ c :=
        mul_le_mul_of_nonneg_right (by omega) (by positivity)
      have hprod0 : 0 ≤ ((d : Int) - 48) * 10 ^ c :=
        mul_nonneg (by omega) (by positivity)
      have hprod1 : ((d : Int) - 48) * 10 ^ c < 2 ^ 63 := by
        have h917 : (9 : Int) * 10 ^ c ≤ 9 * 10 ^ 17 := by
          have := hp10
          omega
        have : ((d : Int) - 48) * 10 ^ c ≤ 9 * 10 ^ 17 := le_trans hprod9 h917
        omega
      rw [goIntWrap_eq_self _ hprod0 hprod1]
      have hsum1 : z + ((d : Int) - 48) * 10 ^ c < 10 ^ (c + 1) := by
        have hpow1 : (10 : Int) ^ (c + 1) = 10 ^ c + 9 * 10 ^ c := by ring
        omega
      have hsum63 : z + ((d : Int) - 48) * 10 ^ c < 2 ^ 63 := by
        have h18 : (10 : Int) ^ (c + 1) ≤ 10 ^ 18 :=
          pow_le_pow_right (by norm_num) (by omega)
        have : ((10 : Int) ^ 18) < 2 ^ 63 := by norm_num
        omega
      rw [goIntWrap_eq_self _ (by omega) hsum63]
      rw [ih (c + 1) _ hrest (by omega) (by omega) hsum1]
      congr 1
      rw [List.reverse_cons, decValue_append_singleton]
      ring

/-- Claim C7 (amended): `Atoi` succeeds if and only if every byte of the
input is at most 0x3A (`':'`) — in particular the empty input succeeds with
0, and bytes below `'0'` or equal to `':'` are wrongly accepted — and on a
non-empty all-digit input of at most 18 digits (which fits the 64-bit
machine int) it returns the decimal value denoted by the input; a longer
all-digit input wraps, e.g. nineteen nines yield -8446744073709551617. -/
theorem c7_atoi_characterization :
    (∀ b : List Nat, (Atoi b).isOk = b.all (fun d => decide (d ≤ 58))) ∧
    (∀ b : List Nat, b ≠ [] → b.length ≤ 18 → (∀ d ∈ b, 48 ≤ d ∧ d ≤ 57) →
      Atoi b = .ok (Spec.decValue b)) ∧
    Atoi (List.replicate 19 57) = .ok (-8446744073709551617) := by
  refine ⟨?_, ?_, rfl⟩
  · intro b
    rw [Atoi, atoiGo_isOk, List.all_reverse]
  · intro b _ hlen hd
    rw [Atoi, atoiGo_digits _ _ _ (fun d hdm => hd d (List.mem_reverse.mp hdm))
      (by simpa using hlen) (le_refl 0) (by norm_num)]
    simp [List.reverse_reverse]

/-- Witness for C7: both parts of the characterisation at the input "42". -/
theorem c7_atoi_witness :
    (Atoi [52, 50]).isOk = [52, 50].all (fun d => decide (d ≤ 58)) ∧
    Atoi [52, 50] = .ok (Spec.decValue [52, 50]) :=
  ⟨c7_atoi_characterization.1 [52, 50],
   c7_atoi_characterization.2.1 [52, 50] (by decide) (by decide) (by decide)⟩

/-- Claim C2 (amended): in the buffer-based revision a NILVALUE-eligible
field is treated as absent if and only if the scanned bytes are empty or
their first byte is `'-'` — so the lone dash is absent, but so is any field
beginning with a dash — and the scanner itself never stops early on a
NILVALUE: its dash condition requires the previously buffered byte to be a
space, which never occurs, so a lone dash comes back as the one-byte buffer
`"-"`, not as empty bytes. -/
theorem c2_field_absence_rule :
    (∀ (rem : List Nat) (h0 : Option (List Nat)) (buf : List Nat) (tb : Nat) (rest : List Nat),
      ReadBytesUntilSpaceOrNilValue rem = .ok (buf, tb, rest) →
      V1.parseHostname rem h0 =
        .ok ((if buf.length = 0 ∨ buf.headD 0 = 45 then h0 else some buf), rest)) ∧
    (∀ rest : List Nat, ReadBytesUntilSpaceOrNilValue (45 :: 32 :: rest) = .ok ([45], 2, rest)) := by
  constructor
  · intro rem h0 buf tb rest h
    simp only [V1.parseHostname, h]
    by_cases h1 : buf.length = 0
    · simp [h1]
    · simp [h1]
      split <;> simp_all
  · intro rest
    rfl

/-- Witness for C2: the rule applied to the field `-foo ` and a lone dash. -/
theorem c2_field_absence_witness :
    V1.parseHostname (str2bytes "-foo ") none =
      .ok ((if (str2bytes "-foo").length = 0 ∨ (str2bytes "-foo").headD 0 = 45
        then none else some (str2bytes "-foo")), []) ∧
    ReadBytesUntilSpaceOrNilValue (45 :: 32 :: [102]) = .ok ([45], 2, [102]) :=
  ⟨c2_field_absence_rule.1 (str2bytes "-foo ") none (str2bytes "-foo") 5 [] rfl,
   c2_field_absence_rule.2 [102]⟩

/-- Claim C5 (amended): the shared `ParsePriority` returns WrongFormat when
the first byte is not `'<'`, and InvalidPriority when `Atoi` rejects the
bytes before `'>'`; but it has no range check (see the counterexample), while
the arena revision's `parsePriority` does enforce the bound — a successful
parse always carries a priority of at most 191 — and reports
InvalidPriority, not WrongFormat, when the `'<'` is missing. -/
theorem c5_priority_decoding_rules :
    (∀ (b : Nat) (rem : List Nat), b ≠ 60 → ParsePriority (b :: rem) = .error .wrongFormat) ∧
    (∀ (s : Arena.AState) (lm s' : _) (lm' : LogMsg),
      Arena.parsePriority s lm = .ok (s', lm') → lm'.priority ≤ 191) ∧
    Arena.parsePriority ⟨str2bytes "14> rest", [], 0, 0⟩ {} = .error .invalidPriority := by
  refine ⟨?_, ?_, rfl⟩
  · intro b rem hb
    simp [ParsePriority, hb]
  · intro s lm s' lm' h
    simp only [Arena.parsePriority] at h
    split at h
    · exact absurd h (by simp)
    · split at h
      · exact absurd h (by simp)
      · split at h
        · exact absurd h (by simp)
        · rename_i prio hp
          split at h
          · exact absurd h (by simp)
          · rename_i hle
            rw [Except.ok.injEq, Prod.mk.injEq] at h
            rw [← h.2]
            simp
            omega

/-- Witness for C5: the rules applied at `>` and at the frame `<14> `. -/
theorem c5_priority_decoding_witness :
    ParsePriority (62 :: []) = .error .wrongFormat ∧
    (({ priority := 14 } : LogMsg)).priority ≤ 191 :=
  ⟨c5_priority_decoding_rules.1 62 [] (by decide),
   c5_priority_decoding_rules.2.1 ⟨str2bytes "<14> rest", [], 0, 0⟩ {}
     ⟨str2bytes " rest", [62, 52, 49, 60], 4, 4⟩ { priority := 14 } rfl⟩

/-- Claim C6 (amended): in the arena revision a version field that parses
to a number other than 1 fails with InvalidProtoVersion and a successful
parse always stores version 1; the buffer-based revision performs no `= 1`
check, so any digit version (e.g. `2`) is accepted and stored. -/
theorem c6_proto_version_rules :
    (∀ (s : Arena.AState) (lm s' : _) (lm' : LogMsg),
      Arena.parseProtoVersion s lm = .ok (s', lm') → lm'.protoVersion = 1) ∧
    Arena.parseProtoVersion ⟨str2bytes "2 rest", [], 0, 0⟩ {} = .error .invalidProtoVersion ∧
    (∀ (d : Nat) (rest : List Nat), 48 ≤ d → d ≤ 57 →
      V1.parseProtoVersion (d :: 32 :: rest) = .ok (d - 48, rest)) := by
  refine ⟨?_, rfl, ?_⟩
  · intro s lm s' lm' h
    simp only [Arena.parseProtoVersion] at h
    split at h
    · exact absurd h (by simp)
    · split at h
      · exact absurd h (by simp)
      · rename_i pv hpv
        split at h
        · exact absurd h (by simp)
        · rename_i hne
          rw [Except.ok.injEq, Prod.mk.injEq] at h
          rw [← h.2]
          simp at hne ⊢
          omega
  · intro d rest h48 h57
    have hd : d ≠ 32 := by omega
    have hscan : ReadBytesUntilSpace (d :: 32 :: rest) = .ok ([d], rest) := by
      simp [ReadBytesUntilSpace, hd]
    simp [V1.parseProtoVersion, hscan, ParseUintBytes, h48, h57]

/-- Witness for C6: the rules applied at version `1` (arena) and `2` (V1). -/
theorem c6_proto_version_witness :
    (({ protoVersion := 1 } : LogMsg)).protoVersion = 1 ∧
    V1.parseProtoVersion [50, 32] = .ok (50 - 48, []) :=
  ⟨c6_proto_version_rules.1 ⟨str2bytes "1 x", [], 0, 0⟩ {} ⟨str2bytes "x", [49], 1, 2⟩
      { protoVersion := 1 } rfl,
   c6_proto_version_rules.2.2 50 [] (by decide) (by decide)⟩

/-- Helper: the month table matches exactly the twelve abbreviations. -/
theorem parseMonth_isSome (a b c : Nat) :
    (R3164.parseMonth a b c).isSome = Spec.monthMatches a b c := by
  unfold R3164.parseMonth Spec.monthMatches
  split_ifs <;> simp_all

/-- Helper: `parse2` equals the spec-side two-digit field value. -/
theorem parse2_eq (a b : Nat) : R3164.parse2 a b = Spec.twoDigitValue a b := by
  unfold R3164.parse2 Spec.twoDigitValue Spec.digit
  split_ifs <;> simp_all <;> omega

/-- Helper: `parseDay` equals the spec-side day field value. -/
theorem parseDay_eq (a b : Nat) : R3164.parseDay a b = Spec.dayValue a b := by
  unfold R3164.parseDay Spec.dayValue Spec.digit
  rw [parse2_eq]
  unfold Spec.twoDigitValue Spec.digit
  split_ifs <;> simp_all <;> omega

/-- Helper: the legacy timestamp validator accepts exactly the byte strings
satisfying the spec-side characterisation. -/
theorem ParseTimestamp_isOk (b : List Nat) :
    (R3164.ParseTimestamp b).isOk = Spec.legacyTimestampOk b := by
  unfold R3164.ParseTimestamp Spec.legacyTimestampOk R3164.timestampLength
  by_cases hl : b.length = 15
  · rw [if_neg (by omega), show (decide (b.length = 15)) = true from by simp [hl],
      Bool.true_and]
    by_cases h3 : b.getD 3 0 = 32
    · by_cases h6 : b.getD 6 0 = 32
      · by_cases h9 : b.getD 9 0 = 58
        · by_cases h12 : b.getD 12 0 = 58
          · rw [if_neg (by tauto),
              show (decide (b.getD 3 0 = 32)) = true from by simp only [decide_eq_true_eq]; exact h3, Bool.true_and,
              show (decide (b.getD 6 0 = 32)) = true from by simp only [decide_eq_true_eq]; exact h6, Bool.true_and,
              show (decide (b.getD 9 0 = 58)) = true from by simp only [decide_eq_true_eq]; exact h9, Bool.true_and,
              show (decide (b.getD 12 0 = 58)) = true from by simp only [decide_eq_true_eq]; exact h12, Bool.true_and]
            cases hm : R3164.parseMonth (b.getD 0 0) (b.getD 1 0) (b.getD 2 0) with
            | none =>
                rw [show Spec.monthMatches (b.getD 0 0) (b.getD 1 0) (b.getD 2 0) = false from by
                  rw [← parseMonth_isSome, hm, Option.isSome_none], Bool.false_and]
                rfl
            | some mon =>
                dsimp only
                rw [show Spec.monthMatches (b.getD 0 0) (b.getD 1 0) (b.getD 2 0) = true from by
                  rw [← parseMonth_isSome, hm, Option.isSome_some], Bool.true_and, ← parseDay_eq]
                cases hd : R3164.parseDay (b.getD 4 0) (b.getD 5 0) with
                | none => rfl
                | some day =>
                    dsimp only
                    by_cases hdr : day < 1 ∨ day > 31
                    · rw [if_pos hdr, show (decide (1 ≤ day ∧ day ≤ 31)) = false from by
                        simp; omega, Bool.false_and]
                      rfl
                    · rw [if_neg hdr, show (decide (1 ≤ day ∧ day ≤ 31)) = true from by
                        simp; omega, Bool.true_and, ← parse2_eq]
                      cases hh : R3164.parse2 (b.getD 7 0) (b.getD 8 0) with
                      | none => rfl
                      | some hhv =>
                          dsimp only
                          by_cases hhr : hhv > 23
                          · rw [if_pos hhr, show (decide (hhv ≤ 23)) = false from by
                              simp; omega, Bool.false_and]
                            rfl
                          · rw [if_neg hhr, show (decide (hhv ≤ 23)) = true from by
                              simp; omega, Bool.true_and, ← parse2_eq]
                            cases hmm : R3164.parse2 (b.getD 10 0) (b.getD 11 0) with
                            | none => rfl
                            | some mmv =>
                                dsimp only
                                by_cases hmr : mmv > 59
                                · rw [if_pos hmr, show (decide (mmv ≤ 59)) = false from by
                                    simp; omega, Bool.false_and]
                                  rfl
                                · rw [if_neg hmr, show (decide (mmv ≤ 59)) = true from by
                                    simp; omega, Bool.true_and, ← parse2_eq]
                                  cases hss : R3164.parse2 (b.getD 13 0) (b.getD 14 0) with
                                  | none => rfl
                                  | some ssv =>
                                      dsimp only
                                      by_cases hsr : ssv > 60
                                      · rw [if_pos hsr,
                                          show (decide (ssv ≤ 60)) = false from by simp; omega]
                                        rfl
                                      · rw [if_neg hsr,
                                          show (decide (ssv ≤ 60)) = true from by simp; omega]
                                        rfl
          · rw [if_pos (by tauto),
              show (decide (b.getD 3 0 = 32)) = true from by simp only [decide_eq_true_eq]; exact h3, Bool.true_and,
              show (decide (b.getD 6 0 = 32)) = true from by simp only [decide_eq_true_eq]; exact h6, Bool.true_and,
              show (decide (b.getD 9 0 = 58)) = true from by simp only [decide_eq_true_eq]; exact h9, Bool.true_and,
              show (decide (b.getD 12 0 = 58)) = false from by simp only [decide_eq_false_iff_not]; exact h12, Bool.false_and]
            rfl
        · rw [if_pos (by tauto),
            show (decide (b.getD 3 0 = 32)) = true from by simp only [decide_eq_true_eq]; exact h3, Bool.true_and,
            show (decide (b.getD 6 0 = 32)) = true from by simp only [decide_eq_true_eq]; exact h6, Bool.true_and,
            show (decide (b.getD 9 0 = 58)) = false from by simp only [decide_eq_false_iff_not]; exact h9, Bool.false_and]
          rfl
      · rw [if_pos (by tauto),
          show (decide (b.getD 3 0 = 32)) = true from by simp only [decide_eq_true_eq]; exact h3, Bool.true_and,
          show (decide (b.getD 6 0 = 32)) = false from by simp only [decide_eq_false_iff_not]; exact h6, Bool.false_and]
        rfl
    · rw [if_pos (by tauto),
        show (decide (b.getD 3 0 = 32)) = false from by simp only [decide_eq_false_iff_not]; exact h3, Bool.false_and]
      rfl
  · rw [if_pos (by omega), show (decide (b.length = 15)) = false from by simp [hl],
      Bool.false_and]
    rfl

/-- Claim C8: the legacy timestamp parser accepts exactly those inputs
whose first 15 bytes have layout `Mmm dd HH:MM:SS` with a known month
abbreviation, day in [1,31] (space- or zero-padded), hour in [0,23], minute
in [0,59] and second in [0,60], and which still have a separator byte to
consume after the 15-byte window; on success exactly 16 bytes are
consumed. -/
theorem c8_legacy_timestamp_exact :
    (∀ rem : List Nat, (R3164.parseTimestamp rem).isOk =
      (decide (16 ≤ rem.length) && Spec.legacyTimestampOk (rem.take 15))) ∧
    (∀ (rem : List Nat) (t : Nat × Nat × Nat × Nat × Nat) (rest : List Nat),
      R3164.parseTimestamp rem = .ok (t, rest) → rest = rem.drop 16) := by
  constructor
  · intro rem
    unfold R3164.parseTimestamp R3164.timestampLength
    by_cases hlt : rem.length < 15
    · rw [if_pos hlt, show (decide (16 ≤ rem.length)) = false from by simp; omega,
        Bool.false_and]
      rfl
    · rw [if_neg hlt]
      cases hdrop : rem.drop 15 with
      | nil =>
          have hlen : rem.length ≤ 15 := by
            have := List.drop_eq_nil_iff_le.mp hdrop
            omega
          rw [show (decide (16 ≤ rem.length)) = false from by simp; omega, Bool.false_and]
          rfl
      | cons x rest =>
          have hlen : 15 < rem.length := by
            by_contra hc
            rw [List.drop_eq_nil_iff_le.mpr (by omega)] at hdrop
            exact List.noConfusion hdrop
          rw [show (decide (16 ≤ rem.length)) = true from by simp; omega, Bool.true_and,
            ← ParseTimestamp_isOk]
          cases R3164.ParseTimestamp (rem.take 15) with
          | error e => rfl
          | ok t => rfl
  · intro rem t rest h
    unfold R3164.parseTimestamp R3164.timestampLength at h
    by_cases hlt : rem.length < 15
    · rw [if_pos hlt] at h
      exact absurd h (by simp)
    · rw [if_neg hlt] at h
      cases hdrop : rem.drop 15 with
      | nil => rw [hdrop] at h; exact absurd h (by simp)
      | cons x rest' =>
          rw [hdrop] at h
          cases hts : R3164.ParseTimestamp (rem.take 15) with
          | error e => rw [hts] at h; exact absurd h (by simp)
          | ok t' =>
              rw [hts] at h
              rw [Except.ok.injEq, Prod.mk.injEq] at h
              have : rem.drop 16 = rest' := by
                have h1 : rem.drop 16 = (rem.drop 15).drop 1 := by
                  rw [List.drop_drop]
                rw [h1, hdrop]
                rfl
              rw [this, h.2]

/-- Witness for C8: the parser at `Oct 11 22:14:15 A`. -/
theorem c8_legacy_timestamp_witness :
    R3164.parseTimestamp (str2bytes "Oct 11 22:14:15 A") = .ok ((10, 11, 22, 14, 15), [65]) ∧
    [65] = (str2bytes "Oct 11 22:14:15 A").drop 16 :=
  ⟨rfl, c8_legacy_timestamp_exact.2 (str2bytes "Oct 11 22:14:15 A") (10, 11, 22, 14, 15) [65] rfl⟩

/-- Helper: `readByte` refuses to write once the offset reaches the cap. -/
theorem readByte_at_cap (s : Arena.AState) (c : Nat) (rest : List Nat)
    (hrem : s.rem = c :: rest) (hcap : Arena.arenaCap ≤ s.offset) :
    Arena.readByte s = .error .wrongFormat := by
  unfold Arena.readByte
  rw [hrem]
  dsimp only
  rw [if_pos (by omega)]

/-- Helper: a successful `readByte` advances the offset, staying in bounds. -/
theorem readByte_offset_bound (s : Arena.AState) (c : Nat) (s' : Arena.AState)
    (h : Arena.readByte s = .ok (c, s')) :
    s'.offset = s.offset + 1 ∧ s'.offset ≤ Arena.arenaCap := by
  unfold Arena.readByte at h
  cases hrem : s.rem with
  | nil => rw [hrem] at h; exact absurd h (by simp)
  | cons b rest =>
      rw [hrem] at h
      dsimp only at h
      by_cases hcap : s.offset ≥ Arena.arenaCap
      · rw [if_pos hcap] at h; exact absurd h (by simp)
      · rw [if_neg hcap] at h
        rw [Except.ok.injEq, Prod.mk.injEq] at h
        rw [← h.2]
        unfold Arena.arenaCap at hcap ⊢
        constructor
        · rfl
        · simp
          omega

/-- Helper: scanning a block of non-delimiter bytes that would exceed the
arena capacity fails with WrongFormat. -/
theorem readUntilGo_overflow (n : Nat) : ∀ (tail arenaRev : List Nat) (offset : Nat) (len : Int),
    offset ≤ Arena.arenaCap → Arena.arenaCap < offset + n →
    Arena.readUntilGo (List.replicate n 104 ++ tail) arenaRev offset len 32 false =
      .error .wrongFormat := by
  induction n with
  | zero => intro tail arenaRev offset len h1 h2; omega
  | succ n ih =>
      intro tail arenaRev offset len h1 h2
      rw [List.replicate_succ, List.cons_append]
      unfold Arena.readUntilGo
      rw [if_neg (by decide)]
      unfold Arena.readByte
      dsimp only
      by_cases hcap : offset ≥ Arena.arenaCap
      · simp only [if_pos hcap]
      · simp only [if_neg hcap]
        exact ih tail (104 :: arenaRev) (offset + 1) (len + 1) (by omega) (by omega)

/-- Helper: the header of the 3000-byte-hostname frame fails with WrongFormat. -/
theorem parseHeader_overflow :
    Arena.parseHeader ⟨str2bytes "<14>1 - " ++ List.replicate 3000 104, [57, 57, 57, 57], 4, 0⟩ {} =
      .error (.wrap .wrongFormat) := by
  have hhost : Arena.parseHostname
      ⟨List.replicate 3000 104, [49, 62, 52, 49, 60, 57, 57, 57, 57], 9, 8⟩
      { priority := 14, protoVersion := 1 } = .error (.wrap .wrongFormat) := by
    unfold Arena.parseHostname Arena.readUntil
    rw [show (List.replicate 3000 104 : List Nat) = List.replicate 3000 104 ++ [] from
      (List.append_nil _).symm]
    rw [readUntilGo_overflow 3000 [] _ 9 8 (by norm_num [Arena.arenaCap])
      (by norm_num [Arena.arenaCap])]
  unfold Arena.parseHeader
  rw [show Arena.parsePriority
      ⟨str2bytes "<14>1 - " ++ List.replicate 3000 104, [57, 57, 57, 57], 4, 0⟩ {} =
    .ok (⟨str2bytes "1 - " ++ List.replicate 3000 104, [62, 52, 49, 60, 57, 57, 57, 57], 8, 4⟩,
      { priority := 14 }) from rfl]
  dsimp only
  rw [show Arena.parseProtoVersion
      ⟨str2bytes "1 - " ++ List.replicate 3000 104, [62, 52, 49, 60, 57, 57, 57, 57], 8, 4⟩
      { priority := 14 } =
    .ok (⟨str2bytes "- " ++ List.replicate 3000 104, [49, 62, 52, 49, 60, 57, 57, 57, 57], 9, 6⟩,
      { priority := 14, protoVersion := 1 }) from rfl]
  dsimp only
  rw [show Arena.parseTimestamp
      ⟨str2bytes "- " ++ List.replicate 3000 104, [49, 62, 52, 49, 60, 57, 57, 57, 57], 9, 6⟩
      { priority := 14, protoVersion := 1 } =
    .ok (⟨List.replicate 3000 104, [49, 62, 52, 49, 60, 57, 57, 57, 57], 9, 8⟩,
      { priority := 14, protoVersion := 1 }) from rfl]
  dsimp only
  rw [hhost]

/-- Helper: decoding the 3000-byte-hostname frame fails with WrongFormat. -/
theorem ParseReader_overflow :
    Arena.ParseReader Inputs.arenaOverflow = .error (.wrap .wrongFormat) := by
  unfold Arena.ParseReader
  dsimp only
  rw [show Arena.parseMessageLength ⟨Inputs.arenaOverflow, [], 0, 0⟩ =
    .ok (9999, ⟨str2bytes "<14>1 - " ++ List.replicate 3000 104, [57, 57, 57, 57], 4, 0⟩)
    from rfl]
  dsimp only
  rw [parseHeader_overflow]
  rfl

/-- Helper: scanning a block of `n` non-delimiter bytes followed by the
delimiter succeeds when it fits the arena, storing the block. -/
theorem readUntilGo_replicate_ok (n : Nat) : ∀ (tail arenaRev : List Nat) (offset : Nat) (len : Int),
    offset + n ≤ Arena.arenaCap →
    Arena.readUntilGo (List.replicate n 104 ++ (32 :: tail)) arenaRev offset len 32 false =
      .ok ⟨tail, List.replicate n 104 ++ arenaRev, offset + n, len + n + 1⟩ := by
  induction n with
  | zero =>
      intro tail arenaRev offset len _
      simp only [List.replicate, List.nil_append]
      unfold Arena.readUntilGo
      rw [if_pos (by decide)]
      simp
  | succ n ih =>
      intro tail arenaRev offset len hcap
      rw [List.replicate_succ, List.cons_append]
      unfold Arena.readUntilGo
      rw [if_neg (by decide)]
      unfold Arena.readByte
      dsimp only
      rw [if_neg (by unfold Arena.arenaCap at hcap ⊢; omega)]
      dsimp only
      rw [ih tail (104 :: arenaRev) (offset + 1) (len + 1) (by omega)]
      rw [Except.ok.injEq, Arena.AState.mk.injEq]
      refine ⟨rfl, ?_, by omega, by push_cast; ring⟩
      rw [show (104 :: arenaRev : List Nat) = [104] ++ arenaRev from rfl,
        ← List.append_assoc, ← List.replicate_succ' n 104, List.replicate_succ]

/-- Helper: a hostname field of `n` repeated bytes is read into the arena
and assigned whenever it fits the capacity. -/
theorem parseHostname_replicate (n : Nat) (T AR : List Nat) (off : Nat) (len : Int)
    (lm : LogMsg) (hcap : off + n ≤ Arena.arenaCap) (hn : 2 ≤ n) :
    Arena.parseHostname ⟨List.replicate n 104 ++ (32 :: T), AR, off, len⟩ lm =
      .ok (⟨T, List.replicate n 104 ++ AR, off + n, len + n + 1⟩,
        { lm with host := some (List.replicate n 104) }) := by
  have hslice : Arena.sliceFrom ⟨T, List.replicate n 104 ++ AR, off + n, len + n + 1⟩ off =
      List.replicate n 104 := by
    unfold Arena.sliceFrom
    dsimp only
    rw [show off + n - off = n from by omega]
    have htake : List.take n (List.replicate n 104 ++ AR) = List.replicate n 104 := by
      simp [List.take_append_eq_append_take, List.take_replicate, List.length_replicate]
    rw [htake]
    exact List.reverse_replicate n 104
  unfold Arena.parseHostname Arena.readUntil
  dsimp only
  rw [readUntilGo_replicate_ok n T AR off len hcap]
  dsimp only
  rw [hslice]
  rw [if_neg (by simp [List.length_replicate]; omega)]

/-- Helper: the header of the 2030-byte-hostname frame parses successfully. -/
theorem parseHeader_large :
    Arena.parseHeader
      ⟨str2bytes "<14>1 - " ++ (List.replicate 2030 104 ++ str2bytes " - - - [id k=\"v\"] msg"),
        [57, 53, 48, 50], 4, 0⟩ {} =
      .ok (⟨str2bytes "[id k=\"v\"] msg", List.replicate 2030 104 ++ [49, 62, 52, 49, 60, 57, 53, 48, 50], 2039, 2045⟩,
        { priority := 14, protoVersion := 1, host := some (List.replicate 2030 104) }) := by
  unfold Arena.parseHeader
  rw [show Arena.parsePriority
      ⟨str2bytes "<14>1 - " ++ (List.replicate 2030 104 ++ str2bytes " - - - [id k=\"v\"] msg"),
        [57, 53, 48, 50], 4, 0⟩ {} =
    .ok (⟨str2bytes "1 - " ++ (List.replicate 2030 104 ++ str2bytes " - - - [id k=\"v\"] msg"),
      [62, 52, 49, 60, 57, 53, 48, 50], 8, 4⟩, { priority := 14 }) from rfl]
  dsimp only
  rw [show Arena.parseProtoVersion
      ⟨str2bytes "1 - " ++ (List.replicate 2030 104 ++ str2bytes " - - - [id k=\"v\"] msg"),
        [62, 52, 49, 60, 57, 53, 48, 50], 8, 4⟩ { priority := 14 } =
    .ok (⟨str2bytes "- " ++ (List.replicate 2030 104 ++ str2bytes " - - - [id k=\"v\"] msg"),
      [49, 62, 52, 49, 60, 57, 53, 48, 50], 9, 6⟩,
      { priority := 14, protoVersion := 1 }) from rfl]
  dsimp only
  rw [show Arena.parseTimestamp
      ⟨str2bytes "- " ++ (List.replicate 2030 104 ++ str2bytes " - - - [id k=\"v\"] msg"),
        [49, 62, 52, 49, 60, 57, 53, 48, 50], 9, 6⟩ { priority := 14, protoVersion := 1 } =
    .ok (⟨List.replicate 2030 104 ++ (32 :: str2bytes "- - - [id k=\"v\"] msg"),
      [49, 62, 52, 49, 60, 57, 53, 48, 50], 9, 8⟩,
      { priority := 14, protoVersion := 1 }) from rfl]
  dsimp only
  rw [parseHostname_replicate 2030 (str2bytes "- - - [id k=\"v\"] msg")
    [49, 62, 52, 49, 60, 57, 53, 48, 50] 9 8 { priority := 14, protoVersion := 1 }
    (by unfold Arena.arenaCap; omega) (by omega)]
  norm_num
  rw [show Arena.parseAppName
      ⟨str2bytes "- - - [id k=\"v\"] msg",
        List.replicate 2030 104 ++ [49, 62, 52, 49, 60, 57, 53, 48, 50], 2039, 2039⟩
      { priority := 14, protoVersion := 1, host := some (List.replicate 2030 104) } =
    .ok (⟨str2bytes "- - [id k=\"v\"] msg",
      List.replicate 2030 104 ++ [49, 62, 52, 49, 60, 57, 53, 48, 50], 2039, 2041⟩,
      { priority := 14, protoVersion := 1, host := some (List.replicate 2030 104) }) from rfl]
  dsimp only
  rw [show Arena.parseProcID
      ⟨str2bytes "- - [id k=\"v\"] msg",
        List.replicate 2030 104 ++ [49, 62, 52, 49, 60, 57, 53, 48, 50], 2039, 2041⟩
      { priority := 14, protoVersion := 1, host := some (List.replicate 2030 104) } =
    .ok (⟨str2bytes "- [id k=\"v\"] msg",
      List.replicate 2030 104 ++ [49, 62, 52, 49, 60, 57, 53, 48, 50], 2039, 2043⟩,
      { priority := 14, protoVersion := 1, host := some (List.replicate 2030 104) }) from rfl]
  dsimp only
  rw [show Arena.parseMsgID
      ⟨str2bytes "- [id k=\"v\"] msg",
        List.replicate 2030 104 ++ [49, 62, 52, 49, 60, 57, 53, 48, 50], 2039, 2043⟩
      { priority := 14, protoVersion := 1, host := some (List.replicate 2030 104) } =
    .ok (⟨str2bytes "[id k=\"v\"] msg",
      List.replicate 2030 104 ++ [49, 62, 52, 49, 60, 57, 53, 48, 50], 2039, 2045⟩,
      { priority := 14, protoVersion := 1, host := some (List.replicate 2030 104) }) from rfl]

/-- Claim C10 counterexample: a frame whose header fields and
structured-data section together require buffering 2054 bytes — more than
2048 — still decodes successfully, because only the header fields go
through the capacity-limited arena while structured data is buffered in a
separate growable buffer. -/
theorem c10_large_buffering_decodes_ok :
    Arena.ParseReader Inputs.largeBuffered =
      .ok { priority := 14, protoVersion := 1, host := some (List.replicate 2030 104), structuredData := some [⟨some (str2bytes "id"), [⟨str2bytes "k", str2bytes "v"⟩]⟩], message := str2bytes "msg", msgLength := 3 } ∧
    2048 < (4 + 4 + 1 + 1 + 2030 + 3) + (str2bytes "[id k=\"v\"]").length + 1 := by
  constructor
  · unfold Arena.ParseReader
    dsimp only
    rw [show Arena.parseMessageLength ⟨Inputs.largeBuffered, [], 0, 0⟩ =
      .ok (2059, ⟨str2bytes "<14>1 - " ++ (List.replicate 2030 104 ++ str2bytes " - - - [id k=\"v\"] msg"),
        [57, 53, 48, 50], 4, 0⟩) from rfl]
    dsimp only
    rw [parseHeader_large]
    dsimp only
    rw [show Arena.parseStructuredData
        ⟨str2bytes "[id k=\"v\"] msg",
          List.replicate 2030 104 ++ [49, 62, 52, 49, 60, 57, 53, 48, 50], 2039, 2045⟩
        { priority := 14, protoVersion := 1, host := some (List.replicate 2030 104) } =
      .ok (⟨str2bytes "msg",
        List.replicate 2030 104 ++ [49, 62, 52, 49, 60, 57, 53, 48, 50], 2039, 2056⟩,
        { priority := 14, protoVersion := 1, host := some (List.replicate 2030 104),
          structuredData := some [⟨some (str2bytes "id"), [⟨str2bytes "k", str2bytes "v"⟩]⟩] })
      from rfl]
    dsimp only
    rw [show Arena.parseBOM
        ⟨str2bytes "msg",
          List.replicate 2030 104 ++ [49, 62, 52, 49, 60, 57, 53, 48, 50], 2039, 2056⟩
        { priority := 14, protoVersion := 1, host := some (List.replicate 2030 104),
          structuredData := some [⟨some (str2bytes "id"), [⟨str2bytes "k", str2bytes "v"⟩]⟩] } =
      .ok (⟨str2bytes "msg",
        List.replicate 2030 104 ++ [49, 62, 52, 49, 60, 57, 53, 48, 50], 2039, 2056⟩,
        { priority := 14, protoVersion := 1, host := some (List.replicate 2030 104),
          structuredData := some [⟨some (str2bytes "id"), [⟨str2bytes "k", str2bytes "v"⟩]⟩] })
      from rfl]
    dsimp only
    rfl
  · decide

/-- Claim C10 (amended): `readByte` refuses to write once the arena offset
has reached the 2048-byte capacity, returning WrongFormat, and a successful
`readByte` keeps the offset within the capacity, so no input can cause a
write beyond the arena's bounds and a frame whose header fields alone
exceed the capacity (e.g. a 3000-byte hostname) fails to decode with
WrongFormat; structured data, however, is not subject to the limit (see the
counterexample). -/
theorem c10_arena_bound_rules :
    (∀ (s : Arena.AState) (c : Nat) (rest : List Nat), s.rem = c :: rest →
      Arena.arenaCap ≤ s.offset → Arena.readByte s = .error .wrongFormat) ∧
    (∀ (s : Arena.AState) (c : Nat) (s' : Arena.AState), Arena.readByte s = .ok (c, s') →
      s'.offset = s.offset + 1 ∧ s'.offset ≤ Arena.arenaCap) ∧
    Arena.ParseReader Inputs.arenaOverflow = .error (.wrap .wrongFormat) :=
  ⟨readByte_at_cap, readByte_offset_bound, ParseReader_overflow⟩

/-- Witness for C10: the arena rules at a full and a near-empty arena. -/
theorem c10_arena_bound_witness :
    Arena.readByte ⟨[7], [], 2048, 0⟩ = .error .wrongFormat ∧
    ((⟨[], [9, 42], 2, 6⟩ : Arena.AState).offset = (⟨[9], [42], 1, 5⟩ : Arena.AState).offset + 1 ∧
      (⟨[], [9, 42], 2, 6⟩ : Arena.AState).offset ≤ Arena.arenaCap) :=
  ⟨c10_arena_bound_rules.1 ⟨[7], [], 2048, 0⟩ 7 [] rfl (by decide),
   c10_arena_bound_rules.2.1 ⟨[9], [42], 1, 5⟩ 9 ⟨[], [9, 42], 2, 6⟩ rfl⟩

end Theorems
